/-
  Verification of the UDP password client/server repository.

  The C sources are embedded shallowly:
  - characters and wire bytes are modelled as `Nat` (byte values 0..255);
  - C character buffers are modelled as functions `Nat → Nat` from index
    to byte, with a single-cell store `storeAt`;
  - the C library `rand()` is modelled as an injected stream `r : Nat → Nat`
    of raw draws; each call site takes the next element of the stream
    (the generators consume one draw per position, `generate_mixed` two);
  - `int` values flowing out of `atoi` are modelled as `Int` (idealized,
    no overflow — overflow of long digit strings is explicitly out of
    the modelled range, as the source and spec both note).

  Sources embedded:
    UDP_server/src/libs/password/password.c  (generate_*, generate_password)
    UDP_server/src/UDP_server.c              (handle_password_request, receive_request)
    UDP_server/src/libs/protocol/protocol.h  (PasswordRequest, PasswordResponse, sizes)
    UDP_client/src/libs/password/password.c  (control_type, control_length, keep_generating)
    UDP_client/src/UDP_client.c              (handle_user_input, main loop)
-/
import Mathlib

set_option maxRecDepth 4000

/-- The `PasswordType` enum of `UDP_server/src/libs/password/password.h`. -/
inductive PasswordType where
  | NUMERIC
  | ALPHA
  | MIXED
  | SECURE
  | UNAMBIGUOUS
deriving DecidableEq, Repr

/-- Protocol constant `BUFFER_SIZE` (protocol.h). -/
def BUFFER_SIZE : Nat := 1024

/-- Protocol constant `MAX_PASSWORD_LENGTH` (protocol.h). -/
def MAX_PASSWORD_LENGTH : Nat := 32

/-- Protocol constant `MIN_PASSWORD_LENGTH` (protocol.h). -/
def MIN_PASSWORD_LENGTH : Nat := 6

/-- `sizeof(PasswordRequest)`: one `type` byte plus `char length[BUFFER_SIZE]`. -/
def REQUEST_SIZE : Nat := 1 + BUFFER_SIZE

/-- `sizeof(PasswordResponse)`: `char password[MAX_PASSWORD_LENGTH + 1]` = 33 bytes. -/
def RESPONSE_SIZE : Nat := MAX_PASSWORD_LENGTH + 1

/- Character-set byte lists, in the exact order of the string literals of
   the source.  Byte values are ASCII codes. -/

/-- Bytes of "0123456789" (digits written by `generate_numeric`). -/
def numeric_charset : List Nat :=
  [48, 49, 50, 51, 52, 53, 54, 55, 56, 57]

/-- Bytes of "abcdefghijklmnopqrstuvwxyz" (letters written by `generate_alpha`). -/
def alpha_charset : List Nat :=
  [97, 98, 99, 100, 101, 102, 103, 104, 105, 106, 107, 108, 109, 110,
   111, 112, 113, 114, 115, 116, 117, 118, 119, 120, 121, 122]

/-- Union charset for MIXED membership (digits together with lowercase letters). -/
def mixed_charset : List Nat := numeric_charset ++ alpha_charset

/-- Bytes of the `generate_secure` charset literal
    "abcdefghijklmnopqrstuvwxyzABCDEFGHIJKLMNOPQRSTUVWXYZ0123456789!@#$%^&*()"
    (72 characters; `sizeof(charset) - 1 = 72`). -/
def secure_charset : List Nat :=
  [97, 98, 99, 100, 101, 102, 103, 104, 105, 106, 107, 108, 109, 110,
   111, 112, 113, 114, 115, 116, 117, 118, 119, 120, 121, 122,
   65, 66, 67, 68, 69, 70, 71, 72, 73, 74, 75, 76, 77, 78,
   79, 80, 81, 82, 83, 84, 85, 86, 87, 88, 89, 90,
   48, 49, 50, 51, 52, 53, 54, 55, 56, 57,
   33, 64, 35, 36, 37, 94, 38, 42, 40, 41]

/-- Bytes of the `generate_unambiguous` charset literal
    "abcdefghjkmnpqrtuvwxyACDEFGHJKLMNPQRTUVWXY34679!@#$%^&*()"
    (57 characters; `sizeof(charset) - 1 = 57`). -/
def unambiguous_charset : List Nat :=
  [97, 98, 99, 100, 101, 102, 103, 104, 106, 107, 109, 110,
   112, 113, 114, 116, 117, 118, 119, 120, 121,
   65, 67, 68, 69, 70, 71, 72, 74, 75, 76, 77, 78,
   80, 81, 82, 84, 85, 86, 87, 88, 89,
   51, 52, 54, 55, 57,
   33, 64, 35, 36, 37, 94, 38, 42, 40, 41]

/-- Bytes of "0Oo1lIi2Zz5Ss8B", the visually-confusable characters that the
    Unambiguous class must never emit. -/
def ambiguous_bytes : List Nat :=
  [48, 79, 111, 49, 108, 73, 105, 50, 90, 122, 53, 83, 115, 56, 66]

/-- The CharsetCatalog mapping of the spec, with the byte sets taken from the
    generator code (for MIXED, membership is in digits-union-letters). -/
def charsetFor : PasswordType → List Nat
  | .NUMERIC => numeric_charset
  | .ALPHA => alpha_charset
  | .MIXED => mixed_charset
  | .SECURE => secure_charset
  | .UNAMBIGUOUS => unambiguous_charset

/- - - - - - - - - - buffer model - - - - - - - - - - -/

/-- One C array store `buf[i] = c`, on a buffer modelled as `Nat → Nat`. -/
def storeAt (buf : Nat → Nat) (i : Nat) (c : Nat) : Nat → Nat :=
  fun j => if j = i then c else buf j

/-- The common generator loop `for (i = 0; i < n; i++) buf[i] = f i;`,
    performed as iterated stores. -/
def writeLoop (f : Nat → Nat) (n : Nat) (buf : Nat → Nat) : Nat → Nat :=
  (List.range n).foldl (fun b i => storeAt b i (f i)) buf

/- - - - - - - - - - server generators (UDP_server password.c) - - - - - - - - - -/

/-- `generate_numeric`: `password[i] = '0' + rand() % 10` for `i < length`,
    then `password[length] = '\0'`.  Draw `i` of the stream is the `rand()`
    call of iteration `i`. -/
def generate_numeric (r : Nat → Nat) (password : Nat → Nat) (length : Nat) : Nat → Nat :=
  storeAt (writeLoop (fun i => 48 + r i % 10) length password) length 0

/-- `generate_alpha`: `password[i] = 'a' + rand() % 26`, then NUL terminator. -/
def generate_alpha (r : Nat → Nat) (password : Nat → Nat) (length : Nat) : Nat → Nat :=
  storeAt (writeLoop (fun i => 97 + r i % 26) length password) length 0

/-- One position of `generate_mixed`:
    `(rand() % 2) ? 'a' + rand() % 26 : '0' + rand() % 10`,
    with `a` the first draw and `b` the second. -/
def mixedDraw (a b : Nat) : Nat :=
  if a % 2 = 1 then 97 + b % 26 else 48 + b % 10

/-- `generate_mixed`: each iteration consumes two draws of the stream
    (one for the branch, one for the character), then NUL terminator. -/
def generate_mixed (r : Nat → Nat) (password : Nat → Nat) (length : Nat) : Nat → Nat :=
  storeAt (writeLoop (fun i => mixedDraw (r (2 * i)) (r (2 * i + 1))) length password) length 0

/-- `generate_secure`: `password[i] = charset[rand() % (sizeof(charset)-1)]`,
    then NUL terminator. -/
def generate_secure (r : Nat → Nat) (password : Nat → Nat) (length : Nat) : Nat → Nat :=
  storeAt (writeLoop (fun i => secure_charset.getD (r i % secure_charset.length) 0)
    length password) length 0

/-- `generate_unambiguous`: same loop over the unambiguous charset. -/
def generate_unambiguous (r : Nat → Nat) (password : Nat → Nat) (length : Nat) : Nat → Nat :=
  storeAt (writeLoop (fun i => unambiguous_charset.getD (r i % unambiguous_charset.length) 0)
    length password) length 0

/-- `generate_password`: switch over the `PasswordType`. -/
def generate_password (r : Nat → Nat) (password : Nat → Nat)
    (type : PasswordType) (length : Nat) : Nat → Nat :=
  match type with
  | .NUMERIC => generate_numeric r password length
  | .ALPHA => generate_alpha r password length
  | .MIXED => generate_mixed r password length
  | .SECURE => generate_secure r password length
  | .UNAMBIGUOUS => generate_unambiguous r password length

/- - - - - - - - - - C library helpers - - - - - - - - - -/

/-- C `tolower` on a byte: maps A-Z (65..90) to a-z, fixes everything else. -/
def c_tolower (c : Nat) : Nat :=
  if 65 ≤ c ∧ c ≤ 90 then c + 32 else c

/-- C `isdigit` on a byte. -/
def isdigit (c : Nat) : Bool :=
  decide (48 ≤ c ∧ c ≤ 57)

/-- C `isspace` on a byte (space and the five control whitespace bytes). -/
def isspace (c : Nat) : Bool :=
  decide (c = 32 ∨ (9 ≤ c ∧ c ≤ 13))

/-- Digit-accumulation loop of `atoi`: consume leading digit bytes. -/
def atoiDigits : List Nat → Nat → Nat
  | [], acc => acc
  | c :: cs, acc => if isdigit c then atoiDigits cs (acc * 10 + (c - 48)) else acc

/-- C `atoi` on a byte string (idealized: exact integer result, no overflow):
    skip leading whitespace, optional sign byte (45 = minus, 43 = plus),
    then accumulate decimal digits up to the first non-digit. -/
def atoi (s : List Nat) : Int :=
  match s.dropWhile (fun c => isspace c) with
  | 45 :: rest => -(atoiDigits rest 0 : Int)
  | 43 :: rest => (atoiDigits rest 0 : Int)
  | t => (atoiDigits t 0 : Int)

/- - - - - - - - - - client validators (UDP_client password.c) - - - - - - - - - -/

/-- `control_type`: `strchr(allowed_type, type) != NULL`.  `strchr` searches
    the string bytes and also matches the terminating NUL, so a NUL `type`
    is found at the terminator. -/
def control_type (allowed_type : List Nat) (type : Nat) : Bool :=
  decide (type ∈ allowed_type) || decide (type = 0)

/-- `control_length`: every byte must satisfy `isdigit` (the loop returns
    false at the first non-digit), then `atoi` of the text must lie in
    `[min_length, max_length]`. -/
def control_length (length : List Nat) (min_length max_length : Int) : Bool :=
  length.all (fun c => isdigit c) &&
    decide (min_length ≤ atoi length ∧ atoi length ≤ max_length)

/-- `keep_generating`: `tolower(type) != tolower(type_for_ending)`. -/
def keep_generating (type type_for_ending : Nat) : Bool :=
  decide (c_tolower type ≠ c_tolower type_for_ending)

/- - - - - - - - - - wire records (protocol.h) - - - - - - - - - -/

/-- `PasswordRequest`: a `type` byte and the `length` text buffer
    (`char length[BUFFER_SIZE]` — the field holds raw bytes). -/
structure PasswordRequest where
  type : Nat
  length : List Nat
deriving DecidableEq, Repr

/-- `PasswordResponse`: `char password[MAX_PASSWORD_LENGTH + 1]` raw bytes. -/
structure PasswordResponse where
  password : List Nat
deriving DecidableEq, Repr

/-- Byte image of a `PasswordRequest` as laid out in memory and sent by
    `sendto(client_socket, password_request, sizeof(*password_request), ...)`:
    the `type` byte followed by the `length` buffer bytes. -/
def bytesOfRequest (r : PasswordRequest) : List Nat :=
  r.type :: r.length

/-- Reading a `PasswordRequest` record back from its memory bytes. -/
def requestOfBytes (bs : List Nat) : PasswordRequest :=
  ⟨bs.headD 0, bs.tail⟩

/-- Byte image of a `PasswordResponse` (its single buffer field). -/
def bytesOfResponse (r : PasswordResponse) : List Nat :=
  r.password

/-- Reading a `PasswordResponse` record back from its memory bytes. -/
def responseOfBytes (bs : List Nat) : PasswordResponse :=
  ⟨bs⟩

/-- `recvfrom` writing a datagram into a struct: the first `dgram.length`
    bytes of the destination memory come from the datagram, the remaining
    bytes keep whatever the memory held before. -/
def recvInto (dgram mem : List Nat) : List Nat :=
  dgram ++ mem.drop dgram.length

/-- Server `receive_request`: `recvfrom` reads at most `sizeof(PasswordRequest)`
    bytes of the datagram into the request struct and the code fails only when
    `recvfrom` itself reports an error (negative size).  A delivered datagram of
    any size therefore always yields a decoded record. -/
def receive_request (dgram mem : List Nat) : Option PasswordRequest :=
  some (requestOfBytes (recvInto (dgram.take REQUEST_SIZE) mem))

/-- Client `receive_response`, symmetric to `receive_request` with the
    33-byte response struct. -/
def receive_response (dgram mem : List Nat) : Option PasswordResponse :=
  some (responseOfBytes (recvInto (dgram.take RESPONSE_SIZE) mem))

/- - - - - - - - - - server request handling (UDP_server.c) - - - - - - - - - -/

/-- The selector switch of `handle_password_request`:
    `switch (tolower(request->type))` with cases n/a/m/s/u and a default
    of NUMERIC. -/
def selector_to_type (c : Nat) : PasswordType :=
  if c_tolower c = 110 then .NUMERIC
  else if c_tolower c = 97 then .ALPHA
  else if c_tolower c = 109 then .MIXED
  else if c_tolower c = 115 then .SECURE
  else if c_tolower c = 117 then .UNAMBIGUOUS
  else .NUMERIC

/-- `handle_password_request`: `atoi` the decoded length text (no range
    re-validation), convert the selector, and generate into the response
    password buffer. -/
def handle_password_request (r : Nat → Nat) (request : PasswordRequest)
    (response : Nat → Nat) : Nat → Nat :=
  generate_password r response (selector_to_type request.type) (atoi request.length).toNat

/- - - - - - - - - - client loop (UDP_client.c) - - - - - - - - - -/

/-- One parsed line of user input, after the help loop has ended:
    the `%c` selector byte, the `%s` length token bytes, and the `sscanf`
    match count (`arguments`). -/
structure UserInput where
  type : Nat
  len : List Nat
  args : Nat
deriving DecidableEq, Repr

/-- Bytes of the default length text "8". -/
def default_len_bytes : List Nat := [56]

/-- Bytes of the allowed-selector string "namsuq" passed to `control_type`. -/
def namsuq_bytes : List Nat := [110, 97, 109, 115, 117, 113]

/-- `handle_user_input` after the help loop: if `arguments == 1` the length
    defaults to "8"; if `arguments` is neither 1 nor 2 the input is invalid;
    then `control_type("namsuq", type)` and
    `control_length(length, MIN, MAX)` must both pass.  Returns the filled
    `PasswordRequest` on success, `none` on a locally-reported error. -/
def handle_user_input (inp : UserInput) : Option PasswordRequest :=
  if inp.args ≠ 1 ∧ inp.args ≠ 2 then none
  else if ¬ control_type namsuq_bytes inp.type then none
  else if ¬ control_length (if inp.args = 1 then default_len_bytes else inp.len) 6 32 then none
  else some ⟨inp.type, if inp.args = 1 then default_len_bytes else inp.len⟩

/-- Observable outcome of one iteration of the client `main` loop. -/
inductive ClientAction where
  | abort
  | stop
  | send (req : PasswordRequest)
deriving DecidableEq, Repr

/-- One iteration of the client `main` loop: invalid input `continue`s with
    no network I/O; `keep_generating(type, 'q')` false `break`s before any
    send; otherwise the validated request is handed to `send_request`. -/
def client_step (inp : UserInput) : ClientAction :=
  match handle_user_input inp with
  | none => .abort
  | some req => if keep_generating req.type 113 then .send req else .stop

/- - - - - - - - - - C7 sample space - - - - - - - - - -/

/-- All `mixedDraw` outcomes over the uniform seed space
    `{0,1} × {0,...,129}` (130 = lcm 26 10, so reduction mod 26 and mod 10
    is exactly uniform on it). -/
def mixedOutcomes : List Nat :=
  ((List.range 2).map (fun a => (List.range 130).map (fun b => mixedDraw a b))).flatten

/- - - - - - - - - - shared concrete inputs for witnesses - - - - - - - - - -/

/-- The all-zero random stream. -/
def zeroStream : Nat → Nat := fun _ => 0

/-- The identity random stream. -/
def idStream : Nat → Nat := fun i => i

/-- An all-zero (NUL-filled) buffer. -/
def zeroBuf : Nat → Nat := fun _ => 0

/- - - - - - - - - - helper lemmas - - - - - - - - - -/

/-- The generator loop leaves indices at or above `n` untouched and writes
    `f j` at each index `j < n`. -/
theorem writeLoop_eq (f : Nat → Nat) :
    ∀ (n : Nat) (buf : Nat → Nat) (j : Nat),
      writeLoop f n buf j = if j < n then f j else buf j := by
  intro n
  induction n with
  | zero => intro buf j; simp [writeLoop]
  | succ n ih =>
      intro buf j
      have hstep : writeLoop f (n + 1) buf =
          storeAt (writeLoop f n buf) n (f n) := by
        simp [writeLoop, List.range_succ, List.foldl_append]
      rw [hstep]
      unfold storeAt
      by_cases hj : j = n
      · subst hj; simp
      · rw [if_neg hj, ih]
        by_cases hlt : j < n
        · rw [if_pos hlt, if_pos (by omega)]
        · rw [if_neg hlt, if_neg (by omega)]

/-- Every terminated generator write (`writeLoop` then NUL store at `n`)
    evaluated pointwise. -/
theorem terminated_write_eq (f : Nat → Nat) (buf : Nat → Nat) (n j : Nat) :
    storeAt (writeLoop f n buf) n 0 j =
      if j = n then 0 else if j < n then f j else buf j := by
  unfold storeAt
  by_cases hj : j = n
  · simp [hj]
  · rw [if_neg hj, if_neg hj, writeLoop_eq]

/-- Every digit byte written by `generate_numeric` is in the numeric charset. -/
theorem mem_numeric_char (m : Nat) : 48 + m % 10 ∈ numeric_charset := by
  have h : m % 10 < 10 := Nat.mod_lt _ (by decide)
  have hall : ∀ k, k < 10 → 48 + k ∈ numeric_charset := by decide
  exact hall _ h

/-- Every letter byte written by `generate_alpha` is in the alpha charset. -/
theorem mem_alpha_char (m : Nat) : 97 + m % 26 ∈ alpha_charset := by
  have h : m % 26 < 26 := Nat.mod_lt _ (by decide)
  have hall : ∀ k, k < 26 → 97 + k ∈ alpha_charset := by decide
  exact hall _ h

/-- Every byte produced by one MIXED position is a digit or a lowercase letter. -/
theorem mem_mixedDraw (a b : Nat) : mixedDraw a b ∈ mixed_charset := by
  unfold mixedDraw
  by_cases h : a % 2 = 1
  · rw [if_pos h]
    have hb : b % 26 < 26 := Nat.mod_lt _ (by decide)
    have hall : ∀ k, k < 26 → 97 + k ∈ mixed_charset := by decide
    exact hall _ hb
  · rw [if_neg h]
    have hb : b % 10 < 10 := Nat.mod_lt _ (by decide)
    have hall : ∀ k, k < 10 → 48 + k ∈ mixed_charset := by decide
    exact hall _ hb

/-- `getD` at an in-range index is an element of the list. -/
theorem getD_mem_of_lt (l : List Nat) (i : Nat) (h : i < l.length) :
    l.getD i 0 ∈ l := by
  induction l generalizing i with
  | nil => simp at h
  | cons x xs ih =>
      cases i with
      | zero => simp [List.getD_cons_zero]
      | succ n =>
          rw [List.getD_cons_succ]
          exact List.mem_cons_of_mem _ (ih n (by simpa using h))

/-- Every byte written by `generate_secure` is in the secure charset. -/
theorem mem_secure_char (m : Nat) :
    secure_charset.getD (m % secure_charset.length) 0 ∈ secure_charset := by
  have h : m % secure_charset.length < secure_charset.length :=
    Nat.mod_lt _ (by decide)
  exact getD_mem_of_lt _ _ h

/-- Every byte written by `generate_unambiguous` is in the unambiguous charset. -/
theorem mem_unambiguous_char (m : Nat) :
    unambiguous_charset.getD (m % unambiguous_charset.length) 0 ∈ unambiguous_charset := by
  have h : m % unambiguous_charset.length < unambiguous_charset.length :=
    Nat.mod_lt _ (by decide)
  exact getD_mem_of_lt _ _ h

/-- No charset contains the NUL byte. -/
theorem charsetFor_ne_nul (c : PasswordType) : ∀ x ∈ charsetFor c, x ≠ 0 := by
  cases c <;> decide

/-- The unambiguous charset contains none of the visually-confusable bytes. -/
theorem unambiguous_avoids_ambiguous :
    ∀ x ∈ unambiguous_charset, x ∉ ambiguous_bytes := by decide

/-- Claim C1: for every password class `c` and every length `L` in `[6, 32]`,
    `generate_password` writes a NUL terminator at index `L` and fills
    indices `0..L-1` with non-NUL bytes of `charsetFor c` (so the resulting
    C string has length exactly `L`); for class UNAMBIGUOUS none of the
    written bytes is one of `0,O,o,1,l,I,i,2,Z,z,5,S,s,8,B`. -/
theorem generate_password_length_and_charset (c : PasswordType) (L : Nat)
    (r buf : Nat → Nat) (hmin : 6 ≤ L) (hmax : L ≤ 32) :
    generate_password r buf c L L = 0 ∧
    (∀ i, i < L → generate_password r buf c L i ∈ charsetFor c ∧
      generate_password r buf c L i ≠ 0) ∧
    (c = .UNAMBIGUOUS → ∀ i, i < L →
      generate_password r buf c L i ∉ ambiguous_bytes) := by
  have main : ∀ i, i < L → generate_password r buf c L i ∈ charsetFor c := by
    intro i hi
    cases c with
    | NUMERIC =>
        show storeAt (writeLoop _ L buf) L 0 i ∈ _
        rw [terminated_write_eq, if_neg (by omega), if_pos hi]
        exact mem_numeric_char (r i)
    | ALPHA =>
        show storeAt (writeLoop _ L buf) L 0 i ∈ _
        rw [terminated_write_eq, if_neg (by omega), if_pos hi]
        exact mem_alpha_char (r i)
    | MIXED =>
        show storeAt (writeLoop _ L buf) L 0 i ∈ _
        rw [terminated_write_eq, if_neg (by omega), if_pos hi]
        exact mem_mixedDraw (r (2 * i)) (r (2 * i + 1))
    | SECURE =>
        show storeAt (writeLoop _ L buf) L 0 i ∈ _
        rw [terminated_write_eq, if_neg (by omega), if_pos hi]
        exact mem_secure_char (r i)
    | UNAMBIGUOUS =>
        show storeAt (writeLoop _ L buf) L 0 i ∈ _
        rw [terminated_write_eq, if_neg (by omega), if_pos hi]
        exact mem_unambiguous_char (r i)
  refine ⟨?_, ?_, ?_⟩
  · cases c <;>
      · show storeAt (writeLoop _ L buf) L 0 L = 0
        rw [terminated_write_eq, if_pos rfl]
  · intro i hi
    exact ⟨main i hi, charsetFor_ne_nul c _ (main i hi)⟩
  · intro hc i hi
    subst hc
    exact unambiguous_avoids_ambiguous _ (main i hi)

theorem generate_password_length_and_charset_witness :
    (6 ≤ 10 ∧ 10 ≤ 32) ∧
    generate_password idStream zeroBuf .UNAMBIGUOUS 10 10 = 0 :=
  ⟨⟨by decide, by decide⟩,
    (generate_password_length_and_charset .UNAMBIGUOUS 10 idStream zeroBuf
      (by decide) (by decide)).1⟩

/-- Claim C2: there is a request whose length text is all digits and parses
    to an integer greater than 32 for which the serving side's generation
    (which never re-validates the range) writes a password byte at an index
    beyond index 32 — past the end of the 33-byte response password buffer. -/
theorem oob_write_reachable :
    ∃ req : PasswordRequest,
      (∀ c ∈ req.length, isdigit c = true) ∧
      32 < atoi req.length ∧
      ∃ j, 32 < j ∧ RESPONSE_SIZE ≤ j ∧
        handle_password_request zeroStream req zeroBuf j ≠ zeroBuf j := by
  refine ⟨⟨110, [52, 48]⟩, by decide, by decide, 33, by decide, by decide, ?_⟩
  decide

/-- Claim C10: `generate_password` writes only indices `0..L` of the
    caller's buffer; every index greater than `L` keeps the byte the buffer
    held before generation (the response padding after the terminator is
    untouched). -/
theorem generate_password_frame (c : PasswordType) (L : Nat) (r buf : Nat → Nat)
    (hmin : 6 ≤ L) (hmax : L ≤ 32) :
    ∀ j, L < j → generate_password r buf c L j = buf j := by
  intro j hj
  cases c <;>
    · show storeAt (writeLoop _ L buf) L 0 j = buf j
      rw [terminated_write_eq, if_neg (by omega), if_neg (by omega)]

theorem generate_password_frame_witness :
    generate_password idStream zeroBuf .ALPHA 6 7 = zeroBuf 7 :=
  generate_password_frame .ALPHA 6 idStream zeroBuf (by decide) (by decide) 7
    (by decide)

/-- Claim C3 counterexample: the validator invoked by `handle_user_input`
    is `control_type("namsuq", type)`, which is case-SENSITIVE and also
    accepts `q`: uppercase `N` (78) is rejected and lowercase `q` (113) is
    accepted, contradicting the claim on both counts. -/
theorem control_type_claim_false :
    control_type namsuq_bytes 78 = false ∧ control_type namsuq_bytes 113 = true := by
  decide

/-- Claim C3 (amended): `control_type` applied to the allowed-type string
    "namsuq", as invoked by `handle_user_input`, returns true for exactly
    the lowercase selectors n, a, m, s, u, q together with the NUL byte
    (`strchr` also matches the string terminator); every other byte —
    including every uppercase form — is rejected. -/
theorem control_type_exact (b : Fin 256) :
    control_type namsuq_bytes b.val = true ↔
      (b.val = 110 ∨ b.val = 97 ∨ b.val = 109 ∨ b.val = 115 ∨ b.val = 117 ∨
        b.val = 113 ∨ b.val = 0) := by
  revert b
  decide

/-- Claim C4: `control_length(text, 6, 32)` returns false for any text with
    a non-digit byte, for the empty string, and for all-digit texts whose
    value falls outside `[6, 32]`; it accepts the boundary values "6" and
    "32", ignores leading zeros ("007" is accepted as 7), and rejects
    "abc" and "33". -/
theorem control_length_spec :
    (∀ s : List Nat, (∃ c ∈ s, isdigit c = false) → control_length s 6 32 = false) ∧
    control_length [] 6 32 = false ∧
    (∀ s : List Nat, (∀ c ∈ s, isdigit c = true) →
      (atoi s < 6 ∨ 32 < atoi s) → control_length s 6 32 = false) ∧
    control_length [54] 6 32 = true ∧
    control_length [51, 50] 6 32 = true ∧
    control_length [48, 48, 55] 6 32 = true ∧
    control_length [97, 98, 99] 6 32 = false ∧
    control_length [51, 51] 6 32 = false := by
  refine ⟨?_, by decide, ?_, by decide, by decide, by decide, by decide, by decide⟩
  · intro s hex
    obtain ⟨c, hcs, hc⟩ := hex
    have hall : s.all (fun c => isdigit c) = false := by
      cases h : s.all (fun c => isdigit c)
      · rfl
      · have := List.all_eq_true.mp h c hcs
        rw [hc] at this
        exact absurd this (by decide)
    simp only [control_length, hall, Bool.false_and]
  · intro s _ hout
    have hdec : decide (6 ≤ atoi s ∧ atoi s ≤ 32) = false := by
      rw [decide_eq_false_iff_not]
      omega
    simp only [control_length, hdec, Bool.and_false]

theorem control_length_spec_witness :
    control_length [51, 97] 6 32 = false ∧ control_length [57, 57] 6 32 = false :=
  ⟨control_length_spec.1 [51, 97] ⟨97, by decide, by decide⟩,
    control_length_spec.2.2.1 [57, 57] (by decide) (Or.inr (by decide))⟩

/-- Claim C5 counterexample: a one-byte datagram — shorter than the fixed
    `REQUEST_SIZE` — is nonetheless accepted by `receive_request` (which
    only fails when `recvfrom` itself errors): decoding produces a request
    record instead of failing. -/
theorem short_datagram_accepted :
    1 < REQUEST_SIZE ∧
    receive_request [110] (List.replicate REQUEST_SIZE 0) ≠ none := by
  constructor
  · decide
  · intro h
    simp [receive_request] at h

/-- Claim C5 (amended): `receive_request` never rejects a delivered datagram
    for its size — for any datagram, even one shorter than the fixed request
    size, it returns a decoded record; a one-byte datagram yields a record
    whose type byte comes from the datagram and whose entire length field is
    whatever the request memory held before, and processing proceeds to
    generation on it. -/
theorem receive_request_short_decodes (t : Nat) (mem : List Nat) :
    receive_request [t] mem = some ⟨t, mem.drop 1⟩ ∧
    (∀ dgram : List Nat, (receive_request dgram mem).isSome = true) := by
  constructor
  · show some (requestOfBytes (recvInto ([t].take REQUEST_SIZE) mem)) = _
    have htake : [t].take REQUEST_SIZE = [t] :=
      List.take_of_length_le (by simp [REQUEST_SIZE, BUFFER_SIZE])
    rw [htake]
    rfl
  · intro dgram
    rfl

/-- Claim C6: the serving side's selector conversion
    (`switch (tolower(request->type))`) maps n/N to NUMERIC, a/A to ALPHA,
    m/M to MIXED, s/S to SECURE, u/U to UNAMBIGUOUS, and every other byte
    to NUMERIC. -/
theorem selector_to_type_spec (b : Fin 256) :
    selector_to_type b.val =
      (if b.val = 110 ∨ b.val = 78 then .NUMERIC
       else if b.val = 97 ∨ b.val = 65 then .ALPHA
       else if b.val = 109 ∨ b.val = 77 then .MIXED
       else if b.val = 115 ∨ b.val = 83 then .SECURE
       else if b.val = 117 ∨ b.val = 85 then .UNAMBIGUOUS
       else .NUMERIC) := by
  revert b
  decide

/-- Claim C7: each MIXED position is produced by first drawing a binary
    choice and then drawing inside the chosen subset
    (`generate_mixed` byte `i` is `mixedDraw` of two fresh draws).  Over the
    uniform seed space `{0,1} × {0..129}`, letter outcomes and digit
    outcomes each take exactly half the mass (130 of 260), each letter is
    hit 5 times, each digit 13 times — so the per-position distribution is
    50/50 between letter-space and digit-space and is NOT uniform over the
    36-character union (the letter `a` and the digit `0` have different
    counts). -/
theorem mixed_distribution :
    (∀ (r buf : Nat → Nat) (L i : Nat), i < L →
        generate_mixed r buf L i = mixedDraw (r (2 * i)) (r (2 * i + 1))) ∧
    mixedOutcomes.countP (fun c => decide (97 ≤ c ∧ c ≤ 122)) = 130 ∧
    mixedOutcomes.countP (fun c => decide (48 ≤ c ∧ c ≤ 57)) = 130 ∧
    (∀ x, x < 123 → 97 ≤ x → mixedOutcomes.count x = 5) ∧
    (∀ x, x < 58 → 48 ≤ x → mixedOutcomes.count x = 13) ∧
    mixedOutcomes.count 97 ≠ mixedOutcomes.count 48 := by
  refine ⟨?_, by decide, by decide, by decide, by decide, by decide⟩
  intro r buf L i hi
  show storeAt (writeLoop _ L buf) L 0 i = _
  rw [terminated_write_eq, if_neg (by omega), if_pos hi]

theorem mixed_distribution_witness :
    generate_mixed idStream zeroBuf 6 0 = mixedDraw 0 1 ∧
    mixedOutcomes.count 97 = 5 :=
  ⟨mixed_distribution.1 idStream zeroBuf 6 0 (by decide),
    mixed_distribution.2.2.2.1 97 (by decide) (by decide)⟩

/-- Claim C8: the client loop never sends an invalid request: whenever the
    class check or the (effective) length check fails, the iteration ends
    in a local abort with no network send; and a request whose selector is
    `q` (113) or `Q` (81) is never the argument of a send (`q` stops the
    loop before sending, `Q` fails validation). -/
theorem client_no_invalid_send (inp : UserInput) :
    ((control_type namsuq_bytes inp.type = false ∨
      control_length (if inp.args = 1 then default_len_bytes else inp.len) 6 32 = false) →
        client_step inp = ClientAction.abort) ∧
    (∀ req, client_step inp = ClientAction.send req →
      req.type ≠ 113 ∧ req.type ≠ 81) := by
  constructor
  · intro h
    have hnone : handle_user_input inp = none := by
      unfold handle_user_input
      by_cases ha : inp.args ≠ 1 ∧ inp.args ≠ 2
      · rw [if_pos ha]
      · rw [if_neg ha]
        by_cases ht : control_type namsuq_bytes inp.type = true
        · rw [if_neg (by simp [ht])]
          have hl : control_length
              (if inp.args = 1 then default_len_bytes else inp.len) 6 32 = false := by
            rcases h with h | h
            · rw [h] at ht
              exact absurd ht (by decide)
            · exact h
          rw [if_pos (by simp [hl])]
        · rw [if_pos (by simpa using ht)]
    unfold client_step
    rw [hnone]
  · intro req hsend
    cases hh : handle_user_input inp with
    | none =>
        have habort : client_step inp = ClientAction.abort := by
          unfold client_step
          rw [hh]
        rw [habort] at hsend
        exact absurd hsend (by simp)
    | some val =>
        have hstep : client_step inp =
            if keep_generating val.type 113 = true then ClientAction.send val
            else ClientAction.stop := by
          unfold client_step
          rw [hh]
        rw [hstep] at hsend
        by_cases hk : keep_generating val.type 113 = true
        · rw [if_pos hk] at hsend
          injection hsend with hv
          subst hv
          have hk2 : c_tolower val.type ≠ c_tolower 113 :=
            of_decide_eq_true hk
          constructor
          · intro hq
            rw [hq] at hk2
            exact hk2 rfl
          · intro hq
            rw [hq] at hk2
            exact hk2 (by decide)
        · rw [if_neg hk] at hsend
          exact absurd hsend (by simp)

theorem client_no_invalid_send_witness :
    client_step ⟨78, [56], 2⟩ = ClientAction.abort :=
  (client_no_invalid_send ⟨78, [56], 2⟩).1 (Or.inl (by decide))

/-- Claim C9: encoding then decoding is the identity on valid records: a
    request whose length buffer is the full `BUFFER_SIZE` bytes round-trips
    through its wire image into uncorrupted struct memory, and a response
    whose password buffer is the full `RESPONSE_SIZE` bytes round-trips
    likewise. -/
theorem wire_roundtrip (req : PasswordRequest) (resp : PasswordResponse)
    (memr memp : List Nat) :
    (req.length.length = BUFFER_SIZE → memr.length = REQUEST_SIZE →
      receive_request (bytesOfRequest req) memr = some req) ∧
    (resp.password.length = RESPONSE_SIZE → memp.length = RESPONSE_SIZE →
      receive_response (bytesOfResponse resp) memp = some resp) := by
  constructor
  · intro hreq hmem
    show some (requestOfBytes (recvInto ((bytesOfRequest req).take REQUEST_SIZE) memr)) = _
    have hlen : (bytesOfRequest req).length = REQUEST_SIZE := by
      simp [bytesOfRequest, hreq, REQUEST_SIZE, BUFFER_SIZE]
    have htake : (bytesOfRequest req).take REQUEST_SIZE = bytesOfRequest req :=
      List.take_of_length_le (le_of_eq hlen)
    rw [htake]
    unfold recvInto
    rw [hlen, ← hmem, List.drop_length, List.append_nil]
    rfl
  · intro hresp hmem
    show some (responseOfBytes (recvInto ((bytesOfResponse resp).take RESPONSE_SIZE) memp)) = _
    have hlen : (bytesOfResponse resp).length = RESPONSE_SIZE := hresp
    have htake : (bytesOfResponse resp).take RESPONSE_SIZE = bytesOfResponse resp :=
      List.take_of_length_le (le_of_eq hlen)
    rw [htake]
    unfold recvInto
    rw [hlen, ← hmem, List.drop_length, List.append_nil]
    rfl

theorem wire_roundtrip_witness :
    receive_request (bytesOfRequest ⟨110, List.replicate BUFFER_SIZE 56⟩)
        (List.replicate REQUEST_SIZE 0) =
      some ⟨110, List.replicate BUFFER_SIZE 56⟩ ∧
    receive_response (bytesOfResponse ⟨List.replicate RESPONSE_SIZE 97⟩)
        (List.replicate RESPONSE_SIZE 0) =
      some ⟨List.replicate RESPONSE_SIZE 97⟩ := by
  have h := wire_roundtrip ⟨110, List.replicate BUFFER_SIZE 56⟩
    ⟨List.replicate RESPONSE_SIZE 97⟩
    (List.replicate REQUEST_SIZE 0) (List.replicate RESPONSE_SIZE 0)
  exact ⟨h.1 (by simp) (by simp), h.2 (by simp) (by simp)⟩
